import Mathlib

/-!
# Verification of the `feiertage` German-holiday library

Shallow embedding of `src/holidays.rs` and `src/regions.rs`.

The library is built on the `time` crate's `Date` type, which represents a
calendar date in the proleptic Gregorian calendar with years restricted to
`[-9999, 9999]` (the crate's default range).  The first section models that
external dependency: `fromCalendarDate` (validated construction),
day-offset addition (`addDays`, via conversion to and from a linear day
count `serial`), and `numberDaysFromMonday` (weekday with Monday = 0 … Sunday = 6).
The conversions follow the standard civil-calendar algorithms; `serial dt` is
the number of days from 0000-03-01 to `dt`, so 0001-01-01 (a Monday) has
serial number 306.

The second section translates the repository's code: the `Holiday` enum and
its `date` rule table, `computus_gregorian`, `relative_to_easter_sunday`,
`bus_und_bettag`, the `Region` enum, `Region::holidays`, `NATION_WIDE_HOLIDAYS`
and `Region::is_holiday`.
-/

set_option autoImplicit false

/-- Model of `time::Date`: year, month (1–12), day of month. -/
structure Date where
  year : Int
  month : Nat
  day : Nat
deriving DecidableEq

/-- Gregorian leap-year rule, as used by `time`'s calendar validation. -/
def isLeap (y : Int) : Bool :=
  y % 4 == 0 && (y % 100 != 0 || y % 400 == 0)

/-- Length of a month in the given year (0 for an invalid month number). -/
def daysInMonth (y : Int) (m : Nat) : Nat :=
  match m with
  | 1 => 31 | 2 => if isLeap y then 29 else 28 | 3 => 31 | 4 => 30 | 5 => 31
  | 6 => 30 | 7 => 31 | 8 => 31 | 9 => 30 | 10 => 31 | 11 => 30 | 12 => 31
  | _ => 0

/-- Model of `time::Date::from_calendar_date`: succeeds iff the year is within
the crate's supported range `[-9999, 9999]` and the month/day combination is a
real calendar date. -/
def fromCalendarDate (y : Int) (m d : Nat) : Option Date :=
  if -9999 ≤ y ∧ y ≤ 9999 ∧ 1 ≤ m ∧ m ≤ 12 ∧ 1 ≤ d ∧ d ≤ daysInMonth y m then
    some ⟨y, m, d⟩
  else
    none

/-- Day-of-era count at the start of year-of-era `yoe` (years counted from
March 1, `0 ≤ yoe ≤ 399`). -/
def doeOfYoe (yoe : Int) : Int :=
  365 * yoe + yoe / 4 - yoe / 100

/-- Day-of-year (March-based) at which shifted month `mp` starts
(`mp = 0` is March, `mp = 11` is February). -/
def doyStart (mp : Int) : Int :=
  (153 * mp + 2) / 5

/-- Linear day count of a date: days since 0000-03-01 (proleptic Gregorian). -/
def serial (dt : Date) : Int :=
  let yShift : Int := if dt.month ≤ 2 then dt.year - 1 else dt.year
  let era : Int := yShift / 400
  let yoe : Int := yShift - era * 400
  let mp : Int := ((dt.month : Int) + 9) % 12
  let doy : Int := doyStart mp + ((dt.day : Int) - 1)
  era * 146097 + doeOfYoe yoe + doy

/-- Recover the year-of-era from a day-of-era (`0 ≤ doe ≤ 146096`). -/
def yoeOfDoe (doe : Int) : Int :=
  (doe - doe / 1460 + doe / 36524 - doe / 146096) / 365

/-- Inverse of `serial`: the calendar date with the given linear day count. -/
def fromSerial (z : Int) : Date :=
  let era : Int := z / 146097
  let doe : Int := z - era * 146097
  let yoe : Int := yoeOfDoe doe
  let y : Int := yoe + era * 400
  let doy : Int := doe - doeOfYoe yoe
  let mp : Int := (5 * doy + 2) / 153
  let d : Int := doy - doyStart mp + 1
  let m : Int := if mp < 10 then mp + 3 else mp - 9
  ⟨if m ≤ 2 then y + 1 else y, m.toNat, d.toNat⟩

/-- Model of `Date + Duration::days(n)` from the `time` crate. -/
def addDays (dt : Date) (n : Int) : Date :=
  fromSerial (serial dt + n)

/-- Model of `date.weekday().number_days_from_monday()`:
0 = Monday, …, 6 = Sunday. -/
def numberDaysFromMonday (dt : Date) : Int :=
  (serial dt + 2) % 7

/-- The `Holiday` enum of `src/holidays.rs`. -/
inductive Holiday where
  | Neujahr
  | HeiligeDreiKoenige
  | Frauentag
  | Karfreitag
  | Ostermontag
  | TagDerArbeit
  | TagDerBefreiung
  | ChristiHimmelfahrt
  | Pfingstsonntag
  | Pfingstmontag
  | Fronleichnam
  | AugsburgerFriedensfest
  | MariaeHimmelfahrt
  | Weltkindertag
  | TagDerDeutschenEinheit
  | Reformationstag
  | Allerheiligen
  | BussUndBettag
  | ErsterWeihnachtsfeiertag
  | ZweiterWeihnachtsfeiertag
deriving DecidableEq

/-- `computus_gregorian` from `src/holidays.rs`.  For `year ≥ 1583` every
intermediate value is nonnegative, so Rust's truncating `i32` division and
remainder coincide with `Int`'s `/` and `%` here.  `month as u8` / `day as u8`
are modeled by `(· % 256).toNat` (the low 8 bits), and `Month::try_from`
rejects numbers outside `1..=12` — which `fromCalendarDate` already checks. -/
def computus_gregorian (year : Int) : Option Date :=
  if year < 1583 ∨ 9999 < year then none
  else
    let aa := year % 19
    let bb := year / 100
    let cc := year % 100
    let dd := bb / 4
    let ee := bb % 4
    let ff := (bb + 8) / 25
    let gg := (bb - ff + 1) / 3
    let hh := (19 * aa + bb - dd - gg + 15) % 30
    let ii := cc / 4
    let kk := cc % 4
    let ll := (32 + 2 * ee + 2 * ii - hh - kk) % 7
    let mm := (aa + 11 * hh + 22 * ll) / 451
    let month := (hh + ll - 7 * mm + 114) / 31
    let day := (hh + ll - 7 * mm + 114) % 31 + 1
    fromCalendarDate year ((month % 256).toNat) ((day % 256).toNat)

/-- `relative_to_easter_sunday` from `src/holidays.rs`. -/
def relative_to_easter_sunday (year : Int) (daysOffset : Int) : Option Date :=
  match computus_gregorian year with
  | none => none
  | some easterSunday => some (addDays easterSunday daysOffset)

/-- `bus_und_bettag` from `src/holidays.rs`. -/
def bus_und_bettag (year : Int) : Option Date :=
  match fromCalendarDate year 11 23 with
  | none => none
  | some referenceDate =>
    let weekdayOrdinal : Int := numberDaysFromMonday referenceDate
    let durationToPreviousWednesday : Int :=
      if weekdayOrdinal < 3 then -(weekdayOrdinal + 5) else 2 - weekdayOrdinal
    some (addDays referenceDate durationToPreviousWednesday)

/-- `Holiday::date` from `src/holidays.rs`. -/
def Holiday.date (h : Holiday) (year : Int) : Option Date :=
  match h with
  | Holiday.Neujahr => fromCalendarDate year 1 1
  | Holiday.HeiligeDreiKoenige => fromCalendarDate year 1 6
  | Holiday.Frauentag => fromCalendarDate year 3 8
  | Holiday.Karfreitag => relative_to_easter_sunday year (-2)
  | Holiday.Ostermontag => relative_to_easter_sunday year 1
  | Holiday.TagDerArbeit => fromCalendarDate year 5 1
  | Holiday.TagDerBefreiung => fromCalendarDate year 5 8
  | Holiday.ChristiHimmelfahrt => relative_to_easter_sunday year 39
  | Holiday.Pfingstsonntag => relative_to_easter_sunday year 49
  | Holiday.Pfingstmontag => relative_to_easter_sunday year 50
  | Holiday.Fronleichnam => relative_to_easter_sunday year 60
  | Holiday.AugsburgerFriedensfest => fromCalendarDate year 8 8
  | Holiday.MariaeHimmelfahrt => fromCalendarDate year 8 15
  | Holiday.Weltkindertag => fromCalendarDate year 9 20
  | Holiday.TagDerDeutschenEinheit => fromCalendarDate year 10 3
  | Holiday.Reformationstag => fromCalendarDate year 10 31
  | Holiday.Allerheiligen => fromCalendarDate year 11 1
  | Holiday.BussUndBettag => bus_und_bettag year
  | Holiday.ErsterWeihnachtsfeiertag => fromCalendarDate year 12 25
  | Holiday.ZweiterWeihnachtsfeiertag => fromCalendarDate year 12 26

/-- The `Region` enum of `src/regions.rs` (the `SachenProtestant` spelling is
the source's). -/
inductive Region where
  | BadenWuerttemberg
  | Bayern
  | BayernAugsburg
  | BayernCatholic
  | BayernProtestant
  | Berlin
  | Brandenburg
  | Bremen
  | Hamburg
  | Hessen
  | MecklenburgVorpommern
  | Niedersachsen
  | NordrheinWestfalen
  | RheinlandPfalz
  | Saarland
  | Sachsen
  | SachsenCatholic
  | SachenProtestant
  | SachsenAnhalt
  | SchleswigHolstein
  | Thueringen
  | ThueringenCatholic
  | ThueringenProtestant
deriving DecidableEq, Fintype

/-- `NATION_WIDE_HOLIDAYS` from `src/regions.rs`. -/
def NATION_WIDE_HOLIDAYS : List Holiday :=
  [Holiday.Neujahr,
   Holiday.Karfreitag,
   Holiday.Ostermontag,
   Holiday.TagDerArbeit,
   Holiday.ChristiHimmelfahrt,
   Holiday.Pfingstmontag,
   Holiday.TagDerDeutschenEinheit,
   Holiday.ErsterWeihnachtsfeiertag,
   Holiday.ZweiterWeihnachtsfeiertag]

/-- `Region::holidays` from `src/regions.rs`: the region-specific list with
the nationwide list appended (`extend_from_slice`). -/
def Region.holidays (r : Region) : List Holiday :=
  (match r with
   | Region.BadenWuerttemberg =>
     [Holiday.HeiligeDreiKoenige, Holiday.Fronleichnam, Holiday.Allerheiligen]
   | Region.Bayern =>
     [Holiday.HeiligeDreiKoenige, Holiday.Fronleichnam, Holiday.MariaeHimmelfahrt,
      Holiday.Allerheiligen]
   | Region.BayernAugsburg =>
     [Holiday.HeiligeDreiKoenige, Holiday.Fronleichnam, Holiday.AugsburgerFriedensfest,
      Holiday.MariaeHimmelfahrt, Holiday.Allerheiligen]
   | Region.BayernCatholic =>
     [Holiday.HeiligeDreiKoenige, Holiday.Fronleichnam, Holiday.MariaeHimmelfahrt,
      Holiday.Allerheiligen]
   | Region.BayernProtestant =>
     [Holiday.HeiligeDreiKoenige, Holiday.Fronleichnam, Holiday.MariaeHimmelfahrt]
   | Region.Berlin => [Holiday.Frauentag]
   | Region.Brandenburg => [Holiday.Reformationstag]
   | Region.Bremen => [Holiday.Reformationstag]
   | Region.Hamburg => [Holiday.Reformationstag]
   | Region.Hessen => [Holiday.Fronleichnam]
   | Region.MecklenburgVorpommern => [Holiday.Frauentag, Holiday.Reformationstag]
   | Region.Niedersachsen => [Holiday.Reformationstag]
   | Region.NordrheinWestfalen => [Holiday.Fronleichnam, Holiday.Allerheiligen]
   | Region.RheinlandPfalz => [Holiday.Fronleichnam, Holiday.Allerheiligen]
   | Region.Saarland =>
     [Holiday.Fronleichnam, Holiday.MariaeHimmelfahrt, Holiday.Allerheiligen]
   | Region.Sachsen => [Holiday.Reformationstag, Holiday.BussUndBettag]
   | Region.SachsenCatholic =>
     [Holiday.Reformationstag, Holiday.Fronleichnam, Holiday.BussUndBettag]
   | Region.SachenProtestant => [Holiday.Reformationstag, Holiday.BussUndBettag]
   | Region.SachsenAnhalt => [Holiday.HeiligeDreiKoenige, Holiday.Reformationstag]
   | Region.SchleswigHolstein => [Holiday.Reformationstag]
   | Region.Thueringen => [Holiday.Weltkindertag, Holiday.Reformationstag]
   | Region.ThueringenCatholic => [Holiday.Fronleichnam, Holiday.Reformationstag]
   | Region.ThueringenProtestant => [Holiday.Reformationstag])
  ++ NATION_WIDE_HOLIDAYS

/-- `Region::is_holiday` from `src/regions.rs`: the source's loop with early
return is `List.any`. -/
def Region.is_holiday (r : Region) (date : Date) : Bool :=
  r.holidays.any fun holiday =>
    match holiday.date date.year with
    | some resolved => decide (date = resolved)
    | none => false

/-- C1: the Computus Engine reproduces the known reference Easter dates,
including the earliest-possible-date case 1818-03-22. -/
theorem computus_reference_years :
    computus_gregorian 2023 = some ⟨2023, 4, 9⟩ ∧
    computus_gregorian 2024 = some ⟨2024, 3, 31⟩ ∧
    computus_gregorian 2025 = some ⟨2025, 4, 20⟩ ∧
    computus_gregorian 2000 = some ⟨2000, 4, 23⟩ ∧
    computus_gregorian 1818 = some ⟨1818, 3, 22⟩ := by
  decide

/-- The quantity `hh + ll - 7 * mm + 114` computed by `computus_gregorian`
(month is its quotient and day its remainder by 31). -/
def easterT (year : Int) : Int :=
  let aa := year % 19
  let bb := year / 100
  let cc := year % 100
  let dd := bb / 4
  let ee := bb % 4
  let ff := (bb + 8) / 25
  let gg := (bb - ff + 1) / 3
  let hh := (19 * aa + bb - dd - gg + 15) % 30
  let ii := cc / 4
  let kk := cc % 4
  let ll := (32 + 2 * ee + 2 * ii - hh - kk) % 7
  let mm := (aa + 11 * hh + 22 * ll) / 451
  hh + ll - 7 * mm + 114

/-- Month of Easter Sunday as computed by `computus_gregorian`. -/
def easterMonth (year : Int) : Nat := (easterT year / 31 % 256).toNat

/-- Day of month of Easter Sunday as computed by `computus_gregorian`. -/
def easterDay (year : Int) : Nat := ((easterT year % 31 + 1) % 256).toNat

theorem computus_gregorian_eq (year : Int) (h : ¬(year < 1583 ∨ 9999 < year)) :
    computus_gregorian year
      = fromCalendarDate year (easterMonth year) (easterDay year) := by
  unfold computus_gregorian easterMonth easterDay easterT
  rw [if_neg h]

theorem easterT_range (year : Int) (h1 : 1583 ≤ year) (h2 : year ≤ 9999) :
    114 ≤ easterT year ∧ easterT year ≤ 148 := by
  simp only [easterT]
  omega

set_option maxRecDepth 4000 in
theorem wcheck_int_all : ∀ r : Nat, r < 400 →
    (365 * (r : Int) + (r : Int) / 4 + (r : Int) / 100
      + 2 * ((r : Int) % 100 / 4) + 6 * ((r : Int) % 100 % 4)) % 7 = 0 := by
  decide

theorem wcheck_int (y : Int) :
    (365 * (y % 400) + (y % 400) / 4 + (y % 400) / 100
      + 2 * ((y % 400) % 100 / 4) + 6 * ((y % 400) % 100 % 4)) % 7 = 0 := by
  have hrn : (((y % 400).toNat : Int)) = y % 400 := by omega
  have h := wcheck_int_all (y % 400).toNat (by omega)
  rw [hrn] at h
  exact h

theorem easter_sunday_mod7 (year : Int) (h1 : 1583 ≤ year) (h2 : year ≤ 9999) :
    (year / 400 * 146097 + doeOfYoe (year - year / 400 * 400)
      + (easterT year - 93) + 2) % 7 = 6 := by
  simp only [easterT, doeOfYoe]
  have hw := wcheck_int year
  have hr : year % 400 = year - year / 400 * 400 := by omega
  rw [hr] at hw
  have hbb2 : year / 100 = 4 * (year / 400) + (year - year / 400 * 400) / 100 := by
    omega
  have hee2 : year / 100 % 4 = (year - year / 400 * 400) / 100 := by
    rw [hbb2]
    omega
  have hcc2 : year % 100 = (year - year / 400 * 400) % 100 := by omega
  rw [hee2, hcc2]
  omega

theorem serial_month3 (y : Int) (D : Nat) :
    serial ⟨y, 3, D⟩ = y / 400 * 146097 + doeOfYoe (y - y / 400 * 400) + ((D : Int) - 1) := by
  simp only [serial, doyStart]
  norm_num

theorem serial_month4 (y : Int) (D : Nat) :
    serial ⟨y, 4, D⟩ = y / 400 * 146097 + doeOfYoe (y - y / 400 * 400)
      + (31 + ((D : Int) - 1)) := by
  simp only [serial, doyStart]
  norm_num

theorem serial_month11 (y : Int) (D : Nat) :
    serial ⟨y, 11, D⟩ = y / 400 * 146097 + doeOfYoe (y - y / 400 * 400)
      + (245 + ((D : Int) - 1)) := by
  simp only [serial, doyStart]
  norm_num

theorem computus_some (year : Int) (h1 : 1583 ≤ year) (h2 : year ≤ 9999) :
    computus_gregorian year = some ⟨year, easterMonth year, easterDay year⟩ := by
  rw [computus_gregorian_eq year (by omega)]
  have ht := easterT_range year h1 h2
  rcases le_or_lt (easterT year) 123 with h | h
  · have hm : easterMonth year = 3 := by unfold easterMonth; omega
    have hcond : -9999 ≤ year ∧ year ≤ 9999 ∧ 1 ≤ easterMonth year ∧ easterMonth year ≤ 12
        ∧ 1 ≤ easterDay year ∧ easterDay year ≤ daysInMonth year (easterMonth year) := by
      rw [hm]
      simp only [daysInMonth]
      unfold easterDay
      omega
    unfold fromCalendarDate
    rw [if_pos hcond]
  · have hm : easterMonth year = 4 := by unfold easterMonth; omega
    have hcond : -9999 ≤ year ∧ year ≤ 9999 ∧ 1 ≤ easterMonth year ∧ easterMonth year ≤ 12
        ∧ 1 ≤ easterDay year ∧ easterDay year ≤ daysInMonth year (easterMonth year) := by
      rw [hm]
      simp only [daysInMonth]
      unfold easterDay
      omega
    unfold fromCalendarDate
    rw [if_pos hcond]

/-- C2: for every year in `[1583, 9999]` the Computus Engine succeeds, the
returned date falls on a Sunday, and it lies between March 22 and April 25. -/
theorem easter_sunday_spec (year : Int) (h1 : 1583 ≤ year) (h2 : year ≤ 9999) :
    computus_gregorian year = some ⟨year, easterMonth year, easterDay year⟩ ∧
    numberDaysFromMonday ⟨year, easterMonth year, easterDay year⟩ = 6 ∧
    ((easterMonth year = 3 ∧ 22 ≤ easterDay year ∧ easterDay year ≤ 31) ∨
     (easterMonth year = 4 ∧ 1 ≤ easterDay year ∧ easterDay year ≤ 25)) := by
  refine ⟨computus_some year h1 h2, ?_, ?_⟩
  · have ht := easterT_range year h1 h2
    have hmod := easter_sunday_mod7 year h1 h2
    unfold numberDaysFromMonday
    rcases le_or_lt (easterT year) 123 with h | h
    · have hm : easterMonth year = 3 := by unfold easterMonth; omega
      have hd : ((easterDay year : Int)) = easterT year - 92 := by
        unfold easterDay
        omega
      rw [hm, serial_month3]
      omega
    · have hm : easterMonth year = 4 := by unfold easterMonth; omega
      have hd : ((easterDay year : Int)) = easterT year - 123 := by
        unfold easterDay
        omega
      rw [hm, serial_month4]
      omega
  · have ht := easterT_range year h1 h2
    rcases le_or_lt (easterT year) 123 with h | h
    · have hm : easterMonth year = 3 := by unfold easterMonth; omega
      refine Or.inl ⟨hm, ?_, ?_⟩ <;> (unfold easterDay; omega)
    · have hm : easterMonth year = 4 := by unfold easterMonth; omega
      refine Or.inr ⟨hm, ?_, ?_⟩ <;> (unfold easterDay; omega)

/-- Witness for C2 at the concrete year 2024. -/
theorem easter_sunday_spec_witness :
    (1583 ≤ (2024 : Int)) ∧ ((2024 : Int) ≤ 9999) ∧
    (computus_gregorian 2024 = some ⟨2024, easterMonth 2024, easterDay 2024⟩ ∧
     numberDaysFromMonday ⟨2024, easterMonth 2024, easterDay 2024⟩ = 6 ∧
     ((easterMonth 2024 = 3 ∧ 22 ≤ easterDay 2024 ∧ easterDay 2024 ≤ 31) ∨
      (easterMonth 2024 = 4 ∧ 1 ≤ easterDay 2024 ∧ easterDay 2024 ≤ 25))) :=
  ⟨by decide, by decide, easter_sunday_spec 2024 (by decide) (by decide)⟩

theorem isLeap_iff (y : Int) :
    isLeap y = true ↔ (y % 4 = 0 ∧ (y % 100 ≠ 0 ∨ y % 400 = 0)) := by
  simp only [isLeap, Bool.and_eq_true, Bool.or_eq_true, beq_iff_eq, bne_iff_ne, ne_eq]

set_option maxHeartbeats 4000000 in
theorem yoe_recover (r doy : Int) (h1 : 0 ≤ r) (h2 : r ≤ 399) (h3 : 0 ≤ doy)
    (h4 : doy ≤ 364 ∨ (doy = 365 ∧ (r + 1) % 4 = 0 ∧ ((r + 1) % 100 ≠ 0 ∨ r = 399))) :
    yoeOfDoe (doeOfYoe r + doy) = r := by
  simp only [yoeOfDoe, doeOfYoe]
  interval_cases r <;> omega

theorem fromSerial_decomp (q r doy : Int)
    (h1 : 0 ≤ r) (h2 : r ≤ 399) (h3 : 0 ≤ doy)
    (h4 : doy ≤ 364 ∨ (doy = 365 ∧ (r + 1) % 4 = 0 ∧ ((r + 1) % 100 ≠ 0 ∨ r = 399))) :
    fromSerial (q * 146097 + doeOfYoe r + doy) =
      ⟨(if (if (5 * doy + 2) / 153 < 10 then (5 * doy + 2) / 153 + 3
            else (5 * doy + 2) / 153 - 9) ≤ 2 then r + q * 400 + 1 else r + q * 400),
       (if (5 * doy + 2) / 153 < 10 then (5 * doy + 2) / 153 + 3
        else (5 * doy + 2) / 153 - 9).toNat,
       (doy - doyStart ((5 * doy + 2) / 153) + 1).toNat⟩ := by
  have hbound : 0 ≤ doeOfYoe r ∧ doeOfYoe r + doy ≤ 146096 := by
    simp only [doeOfYoe]
    omega
  have hera : (q * 146097 + doeOfYoe r + doy) / 146097 = q := by omega
  have hdoe : q * 146097 + doeOfYoe r + doy
      - (q * 146097 + doeOfYoe r + doy) / 146097 * 146097 = doeOfYoe r + doy := by
    rw [hera]
    ring
  simp only [fromSerial]
  rw [hdoe, yoe_recover r doy h1 h2 h3 h4, hera]
  have hcan : doeOfYoe r + doy - doeOfYoe r = doy := by ring
  rw [hcan]

theorem serial_eq3 (y : Int) (m d : Nat) (S : Int) (h3 : 3 ≤ m) (h12 : m ≤ 12)
    (hS : S = doyStart ((m : Int) - 3)) :
    serial ⟨y, m, d⟩ = y / 400 * 146097 + doeOfYoe (y - y / 400 * 400)
      + (S + ((d : Int) - 1)) := by
  simp only [serial]
  rw [if_neg (by omega : ¬ m ≤ 2)]
  rw [show ((m : Int) + 9) % 12 = (m : Int) - 3 by omega]
  rw [hS]

theorem serial_eq_jf (y : Int) (m d : Nat) (S : Int) (h1 : 1 ≤ m) (h2 : m ≤ 2)
    (hS : S = doyStart ((m : Int) + 9)) :
    serial ⟨y, m, d⟩ = (y - 1) / 400 * 146097 + doeOfYoe ((y - 1) - (y - 1) / 400 * 400)
      + (S + ((d : Int) - 1)) := by
  simp only [serial]
  rw [if_pos (by omega : m ≤ 2)]
  rw [show ((m : Int) + 9) % 12 = (m : Int) + 9 by omega]
  rw [hS]

/-- `fromSerial` inverts `serial` on every valid calendar date. -/
theorem fromSerial_serial (y : Int) (m d : Nat)
    (hy1 : -9999 ≤ y) (hy2 : y ≤ 9999) (hm1 : 1 ≤ m) (hm2 : m ≤ 12)
    (hd1 : 1 ≤ d) (hd2 : d ≤ daysInMonth y m) :
    fromSerial (serial ⟨y, m, d⟩) = ⟨y, m, d⟩ := by
  interval_cases m
  · -- January
    simp only [daysInMonth] at hd2
    rw [serial_eq_jf y 1 d 306 (by norm_num) (by norm_num) (by decide)]
    rw [fromSerial_decomp ((y - 1) / 400) ((y - 1) - (y - 1) / 400 * 400)
      (306 + ((d : Int) - 1)) (by omega) (by omega) (by omega) (by left; omega)]
    rw [show (5 * (306 + ((d : Int) - 1)) + 2) / 153 = 10 by omega]
    simp only [Date.mk.injEq, doyStart]
    norm_num
    all_goals omega
  · -- February
    simp only [daysInMonth] at hd2
    have hL := isLeap_iff y
    have h4 : 337 + ((d : Int) - 1) ≤ 364 ∨
        (337 + ((d : Int) - 1) = 365 ∧ ((y - 1) - (y - 1) / 400 * 400 + 1) % 4 = 0 ∧
          (((y - 1) - (y - 1) / 400 * 400 + 1) % 100 ≠ 0 ∨
            (y - 1) - (y - 1) / 400 * 400 = 399)) := by
      by_cases hLy : isLeap y = true
      · have := hL.mp hLy
        rw [if_pos hLy] at hd2
        omega
      · rw [if_neg hLy] at hd2
        omega
    rw [serial_eq_jf y 2 d 337 (by norm_num) (by norm_num) (by decide)]
    rw [fromSerial_decomp ((y - 1) / 400) ((y - 1) - (y - 1) / 400 * 400)
      (337 + ((d : Int) - 1)) (by omega) (by omega) (by omega) h4]
    rw [show (5 * (337 + ((d : Int) - 1)) + 2) / 153 = 11 by omega]
    simp only [Date.mk.injEq, doyStart]
    norm_num
    all_goals omega
  · -- March
    simp only [daysInMonth] at hd2
    rw [serial_eq3 y 3 d 0 (by norm_num) (by norm_num) (by decide)]
    rw [fromSerial_decomp (y / 400) (y - y / 400 * 400)
      (0 + ((d : Int) - 1)) (by omega) (by omega) (by omega) (by left; omega)]
    rw [show (5 * (0 + ((d : Int) - 1)) + 2) / 153 = 0 by omega]
    simp only [Date.mk.injEq, doyStart]
    norm_num
    all_goals omega
  · -- April
    simp only [daysInMonth] at hd2
    rw [serial_eq3 y 4 d 31 (by norm_num) (by norm_num) (by decide)]
    rw [fromSerial_decomp (y / 400) (y - y / 400 * 400)
      (31 + ((d : Int) - 1)) (by omega) (by omega) (by omega) (by left; omega)]
    rw [show (5 * (31 + ((d : Int) - 1)) + 2) / 153 = 1 by omega]
    simp only [Date.mk.injEq, doyStart]
    norm_num
    all_goals omega
  · -- May
    simp only [daysInMonth] at hd2
    rw [serial_eq3 y 5 d 61 (by norm_num) (by norm_num) (by decide)]
    rw [fromSerial_decomp (y / 400) (y - y / 400 * 400)
      (61 + ((d : Int) - 1)) (by omega) (by omega) (by omega) (by left; omega)]
    rw [show (5 * (61 + ((d : Int) - 1)) + 2) / 153 = 2 by omega]
    simp only [Date.mk.injEq, doyStart]
    norm_num
    all_goals omega
  · -- June
    simp only [daysInMonth] at hd2
    rw [serial_eq3 y 6 d 92 (by norm_num) (by norm_num) (by decide)]
    rw [fromSerial_decomp (y / 400) (y - y / 400 * 400)
      (92 + ((d : Int) - 1)) (by omega) (by omega) (by omega) (by left; omega)]
    rw [show (5 * (92 + ((d : Int) - 1)) + 2) / 153 = 3 by omega]
    simp only [Date.mk.injEq, doyStart]
    norm_num
    all_goals omega
  · -- July
    simp only [daysInMonth] at hd2
    rw [serial_eq3 y 7 d 122 (by norm_num) (by norm_num) (by decide)]
    rw [fromSerial_decomp (y / 400) (y - y / 400 * 400)
      (122 + ((d : Int) - 1)) (by omega) (by omega) (by omega) (by left; omega)]
    rw [show (5 * (122 + ((d : Int) - 1)) + 2) / 153 = 4 by omega]
    simp only [Date.mk.injEq, doyStart]
    norm_num
    all_goals omega
  · -- August
    simp only [daysInMonth] at hd2
    rw [serial_eq3 y 8 d 153 (by norm_num) (by norm_num) (by decide)]
    rw [fromSerial_decomp (y / 400) (y - y / 400 * 400)
      (153 + ((d : Int) - 1)) (by omega) (by omega) (by omega) (by left; omega)]
    rw [show (5 * (153 + ((d : Int) - 1)) + 2) / 153 = 5 by omega]
    simp only [Date.mk.injEq, doyStart]
    norm_num
    all_goals omega
  · -- September
    simp only [daysInMonth] at hd2
    rw [serial_eq3 y 9 d 184 (by norm_num) (by norm_num) (by decide)]
    rw [fromSerial_decomp (y / 400) (y - y / 400 * 400)
      (184 + ((d : Int) - 1)) (by omega) (by omega) (by omega) (by left; omega)]
    rw [show (5 * (184 + ((d : Int) - 1)) + 2) / 153 = 6 by omega]
    simp only [Date.mk.injEq, doyStart]
    norm_num
    all_goals omega
  · -- October
    simp only [daysInMonth] at hd2
    rw [serial_eq3 y 10 d 214 (by norm_num) (by norm_num) (by decide)]
    rw [fromSerial_decomp (y / 400) (y - y / 400 * 400)
      (214 + ((d : Int) - 1)) (by omega) (by omega) (by omega) (by left; omega)]
    rw [show (5 * (214 + ((d : Int) - 1)) + 2) / 153 = 7 by omega]
    simp only [Date.mk.injEq, doyStart]
    norm_num
    all_goals omega
  · -- November
    simp only [daysInMonth] at hd2
    rw [serial_eq3 y 11 d 245 (by norm_num) (by norm_num) (by decide)]
    rw [fromSerial_decomp (y / 400) (y - y / 400 * 400)
      (245 + ((d : Int) - 1)) (by omega) (by omega) (by omega) (by left; omega)]
    rw [show (5 * (245 + ((d : Int) - 1)) + 2) / 153 = 8 by omega]
    simp only [Date.mk.injEq, doyStart]
    norm_num
    all_goals omega
  · -- December
    simp only [daysInMonth] at hd2
    rw [serial_eq3 y 12 d 275 (by norm_num) (by norm_num) (by decide)]
    rw [fromSerial_decomp (y / 400) (y - y / 400 * 400)
      (275 + ((d : Int) - 1)) (by omega) (by omega) (by omega) (by left; omega)]
    rw [show (5 * (275 + ((d : Int) - 1)) + 2) / 153 = 9 by omega]
    simp only [Date.mk.injEq, doyStart]
    norm_num
    all_goals omega

/-- Day of month produced by the `bus_und_bettag` rule: step back from Nov 23
by `weekday + 5` days when the weekday index is below 3, else by `weekday - 2`. -/
def bbDay (year : Int) : Nat :=
  (23 + (if numberDaysFromMonday ⟨year, 11, 23⟩ < 3
         then -(numberDaysFromMonday ⟨year, 11, 23⟩ + 5)
         else 2 - numberDaysFromMonday ⟨year, 11, 23⟩)).toNat

/-- C4: for every representable year, the Repentance-Day rule starts from
Nov 23, steps back according to the weekday index (Monday = 0 … Sunday = 6),
and always lands on a Wednesday between Nov 16 and Nov 22 of the same year;
in particular 2023-11-22 and 2024-11-20. -/
theorem bus_und_bettag_spec (year : Int) (h1 : -9999 ≤ year) (h2 : year ≤ 9999) :
    bus_und_bettag year = some ⟨year, 11, bbDay year⟩ ∧
    16 ≤ bbDay year ∧ bbDay year ≤ 22 ∧
    numberDaysFromMonday ⟨year, 11, bbDay year⟩ = 2 ∧
    bus_und_bettag 2023 = some ⟨2023, 11, 22⟩ ∧
    bus_und_bettag 2024 = some ⟨2024, 11, 20⟩ := by
  have h23 := serial_eq3 year 11 23 245 (by norm_num) (by norm_num) (by decide)
  norm_num at h23
  have hbbs := serial_eq3 year 11 (bbDay year) 245 (by norm_num) (by norm_num) (by decide)
  have hw23 : numberDaysFromMonday ⟨year, 11, 23⟩ = (serial ⟨year, 11, 23⟩ + 2) % 7 := rfl
  have hw0 : 0 ≤ numberDaysFromMonday ⟨year, 11, 23⟩
      ∧ numberDaysFromMonday ⟨year, 11, 23⟩ ≤ 6 := by
    rw [hw23]
    omega
  have href : fromCalendarDate year 11 23 = some ⟨year, 11, 23⟩ := by
    simp only [fromCalendarDate, daysInMonth]
    rw [if_pos (by omega)]
  by_cases hlt : numberDaysFromMonday ⟨year, 11, 23⟩ < 3
  · have hbbc : ((bbDay year : Int)) = 18 - numberDaysFromMonday ⟨year, 11, 23⟩ := by
      simp only [bbDay]
      rw [if_pos hlt]
      omega
    have hsa : serial ⟨year, 11, 23⟩ + (-(numberDaysFromMonday ⟨year, 11, 23⟩ + 5))
        = serial ⟨year, 11, bbDay year⟩ := by
      rw [h23, hbbs]
      omega
    refine ⟨?_, by omega, by omega, ?_, by decide, by decide⟩
    · simp only [bus_und_bettag, href]
      rw [if_pos hlt]
      simp only [addDays]
      rw [hsa, fromSerial_serial year 11 (bbDay year) h1 h2 (by norm_num) (by norm_num)
        (by omega) (by simp only [daysInMonth]; omega)]
    · show (serial ⟨year, 11, bbDay year⟩ + 2) % 7 = 2
      rw [hbbs]
      omega
  · have hbbc : ((bbDay year : Int)) = 25 - numberDaysFromMonday ⟨year, 11, 23⟩ := by
      simp only [bbDay]
      rw [if_neg hlt]
      omega
    have hsa : serial ⟨year, 11, 23⟩ + (2 - numberDaysFromMonday ⟨year, 11, 23⟩)
        = serial ⟨year, 11, bbDay year⟩ := by
      rw [h23, hbbs]
      omega
    refine ⟨?_, by omega, by omega, ?_, by decide, by decide⟩
    · simp only [bus_und_bettag, href]
      rw [if_neg hlt]
      simp only [addDays]
      rw [hsa, fromSerial_serial year 11 (bbDay year) h1 h2 (by norm_num) (by norm_num)
        (by omega) (by simp only [daysInMonth]; omega)]
    · show (serial ⟨year, 11, bbDay year⟩ + 2) % 7 = 2
      rw [hbbs]
      omega

/-- Witness for C4 at the concrete year 2023. -/
theorem bus_und_bettag_spec_witness :
    (-9999 ≤ (2023 : Int)) ∧ ((2023 : Int) ≤ 9999) ∧
    (bus_und_bettag 2023 = some ⟨2023, 11, bbDay 2023⟩ ∧
     16 ≤ bbDay 2023 ∧ bbDay 2023 ≤ 22 ∧
     numberDaysFromMonday ⟨2023, 11, bbDay 2023⟩ = 2 ∧
     bus_und_bettag 2023 = some ⟨2023, 11, 22⟩ ∧
     bus_und_bettag 2024 = some ⟨2024, 11, 20⟩) :=
  ⟨by decide, by decide, bus_und_bettag_spec 2023 (by decide) (by decide)⟩

theorem serial_addDays (y : Int) (m d : Nat) (n : Int) (m' d' : Nat)
    (hy1 : -9999 ≤ y) (hy2 : y ≤ 9999) (hm1 : 1 ≤ m') (hm2 : m' ≤ 12)
    (hd1 : 1 ≤ d') (hd2 : d' ≤ daysInMonth y m')
    (hs : serial ⟨y, m, d⟩ + n = serial ⟨y, m', d'⟩) :
    addDays ⟨y, m, d⟩ n = ⟨y, m', d'⟩ := by
  simp only [addDays]
  rw [hs, fromSerial_serial y m' d' hy1 hy2 hm1 hm2 hd1 hd2]

/-- C7: whenever the Computus Engine succeeds, Good Friday is exactly 2 days
before and Easter Monday exactly 1 day after Easter Sunday. -/
theorem good_friday_easter_monday (year : Int) (d : Date)
    (h : computus_gregorian year = some d) :
    Holiday.date Holiday.Karfreitag year = some (addDays d (-2)) ∧
    serial (addDays d (-2)) = serial d - 2 ∧
    Holiday.date Holiday.Ostermontag year = some (addDays d 1) ∧
    serial (addDays d 1) = serial d + 1 := by
  have hyr : 1583 ≤ year ∧ year ≤ 9999 := by
    by_contra hcon
    have hn : computus_gregorian year = none := by
      unfold computus_gregorian
      rw [if_pos (by omega)]
    rw [hn] at h
    exact Option.noConfusion h
  have hsome := computus_some year hyr.1 hyr.2
  rw [h] at hsome
  have hd : d = ⟨year, easterMonth year, easterDay year⟩ := by
    exact Option.some.injEq _ _ ▸ hsome
  subst hd
  have hET := easterT_range year hyr.1 hyr.2
  refine ⟨by simp only [Holiday.date, relative_to_easter_sunday, h], ?_,
          by simp only [Holiday.date, relative_to_easter_sunday, h], ?_⟩
  · -- Good Friday: 2 days earlier
    rcases le_or_lt (easterT year) 123 with hA | hA
    · -- March 22..31, minus 2 stays in March
      have hm : easterMonth year = 3 := by unfold easterMonth; omega
      have hdv : ((easterDay year : Int)) = easterT year - 92 := by unfold easterDay; omega
      rw [hm]
      have hs : serial ⟨year, 3, easterDay year⟩ + (-2)
          = serial ⟨year, 3, easterDay year - 2⟩ := by
        rw [serial_eq3 year 3 (easterDay year) 0 (by norm_num) (by norm_num) (by decide),
            serial_eq3 year 3 (easterDay year - 2) 0 (by norm_num) (by norm_num) (by decide)]
        omega
      rw [serial_addDays year 3 (easterDay year) (-2) 3 (easterDay year - 2)
        (by omega) (by omega) (by norm_num) (by norm_num) (by omega)
        (by simp only [daysInMonth]; omega) hs]
      omega
    · rcases le_or_lt 3 (easterDay year) with hB | hB
      · -- April 3..25, minus 2 stays in April
        have hm : easterMonth year = 4 := by unfold easterMonth; omega
        have hdv : ((easterDay year : Int)) = easterT year - 123 := by unfold easterDay; omega
        rw [hm]
        have hs : serial ⟨year, 4, easterDay year⟩ + (-2)
            = serial ⟨year, 4, easterDay year - 2⟩ := by
          rw [serial_eq3 year 4 (easterDay year) 31 (by norm_num) (by norm_num) (by decide),
              serial_eq3 year 4 (easterDay year - 2) 31 (by norm_num) (by norm_num) (by decide)]
          omega
        rw [serial_addDays year 4 (easterDay year) (-2) 4 (easterDay year - 2)
          (by omega) (by omega) (by norm_num) (by norm_num) (by omega)
          (by simp only [daysInMonth]; omega) hs]
        omega
      · -- April 1 or 2, minus 2 lands in March
        have hm : easterMonth year = 4 := by unfold easterMonth; omega
        have hdv : ((easterDay year : Int)) = easterT year - 123 := by unfold easterDay; omega
        have hd1 : 1 ≤ easterDay year := by omega
        rw [hm]
        have hs : serial ⟨year, 4, easterDay year⟩ + (-2)
            = serial ⟨year, 3, easterDay year + 29⟩ := by
          rw [serial_eq3 year 4 (easterDay year) 31 (by norm_num) (by norm_num) (by decide),
              serial_eq3 year 3 (easterDay year + 29) 0 (by norm_num) (by norm_num) (by decide)]
          omega
        rw [serial_addDays year 4 (easterDay year) (-2) 3 (easterDay year + 29)
          (by omega) (by omega) (by norm_num) (by norm_num) (by omega)
          (by simp only [daysInMonth]; omega) hs]
        omega
  · -- Easter Monday: 1 day later
    rcases le_or_lt (easterT year) 123 with hA | hA
    · rcases le_or_lt (easterDay year) 30 with hB | hB
      · -- March 22..30, plus 1 stays in March
        have hm : easterMonth year = 3 := by unfold easterMonth; omega
        have hdv : ((easterDay year : Int)) = easterT year - 92 := by unfold easterDay; omega
        rw [hm]
        have hs : serial ⟨year, 3, easterDay year⟩ + 1
            = serial ⟨year, 3, easterDay year + 1⟩ := by
          rw [serial_eq3 year 3 (easterDay year) 0 (by norm_num) (by norm_num) (by decide),
              serial_eq3 year 3 (easterDay year + 1) 0 (by norm_num) (by norm_num) (by decide)]
          omega
        rw [serial_addDays year 3 (easterDay year) 1 3 (easterDay year + 1)
          (by omega) (by omega) (by norm_num) (by norm_num) (by omega)
          (by simp only [daysInMonth]; omega) hs]
        omega
      · -- March 31, plus 1 is April 1
        have hm : easterMonth year = 3 := by unfold easterMonth; omega
        have hdv : ((easterDay year : Int)) = easterT year - 92 := by unfold easterDay; omega
        have hd31 : easterDay year = 31 := by
          unfold easterDay at hB ⊢
          omega
        rw [hm]
        have hs : serial ⟨year, 3, easterDay year⟩ + 1 = serial ⟨year, 4, 1⟩ := by
          rw [serial_eq3 year 3 (easterDay year) 0 (by norm_num) (by norm_num) (by decide),
              serial_eq3 year 4 1 31 (by norm_num) (by norm_num) (by decide)]
          omega
        rw [serial_addDays year 3 (easterDay year) 1 4 1
          (by omega) (by omega) (by norm_num) (by norm_num) (by omega)
          (by simp only [daysInMonth]; omega) hs]
        omega
    · -- April 1..25, plus 1 stays in April
      have hm : easterMonth year = 4 := by unfold easterMonth; omega
      have hdv : ((easterDay year : Int)) = easterT year - 123 := by unfold easterDay; omega
      rw [hm]
      have hs : serial ⟨year, 4, easterDay year⟩ + 1
          = serial ⟨year, 4, easterDay year + 1⟩ := by
        rw [serial_eq3 year 4 (easterDay year) 31 (by norm_num) (by norm_num) (by decide),
            serial_eq3 year 4 (easterDay year + 1) 31 (by norm_num) (by norm_num) (by decide)]
        omega
      rw [serial_addDays year 4 (easterDay year) 1 4 (easterDay year + 1)
        (by omega) (by omega) (by norm_num) (by norm_num) (by omega)
        (by simp only [daysInMonth]; omega) hs]
      omega

/-- Witness for C7 at the concrete year 2024 (Easter Sunday 2024-03-31). -/
theorem good_friday_easter_monday_witness :
    computus_gregorian 2024 = some ⟨2024, 3, 31⟩ ∧
    (Holiday.date Holiday.Karfreitag 2024 = some (addDays ⟨2024, 3, 31⟩ (-2)) ∧
     serial (addDays ⟨2024, 3, 31⟩ (-2)) = serial ⟨2024, 3, 31⟩ - 2 ∧
     Holiday.date Holiday.Ostermontag 2024 = some (addDays ⟨2024, 3, 31⟩ 1) ∧
     serial (addDays ⟨2024, 3, 31⟩ 1) = serial ⟨2024, 3, 31⟩ + 1) :=
  ⟨by decide, good_friday_easter_monday 2024 ⟨2024, 3, 31⟩ (by decide)⟩

/-- C3: the Computus Engine returns `none` exactly for years outside
`[1583, 9999]`, and each Easter-relative holiday rule returns `none` exactly
when the Computus Engine does (propagation). -/
theorem computus_none_iff (y : Int) :
    (computus_gregorian y = none ↔ (y < 1583 ∨ 9999 < y)) ∧
    (Holiday.date Holiday.Karfreitag y = none ↔ computus_gregorian y = none) ∧
    (Holiday.date Holiday.Ostermontag y = none ↔ computus_gregorian y = none) ∧
    (Holiday.date Holiday.ChristiHimmelfahrt y = none ↔ computus_gregorian y = none) ∧
    (Holiday.date Holiday.Pfingstsonntag y = none ↔ computus_gregorian y = none) ∧
    (Holiday.date Holiday.Pfingstmontag y = none ↔ computus_gregorian y = none) ∧
    (Holiday.date Holiday.Fronleichnam y = none ↔ computus_gregorian y = none) := by
  constructor
  · constructor
    · intro hn
      by_contra hcon
      rw [computus_some y (by omega) (by omega)] at hn
      exact Option.noConfusion hn
    · intro hy
      unfold computus_gregorian
      rw [if_pos hy]
  · refine ⟨?_, ?_, ?_, ?_, ?_, ?_⟩ <;>
    · simp only [Holiday.date, relative_to_easter_sunday]
      cases computus_gregorian y <;> simp

/-- C5: `Region::is_holiday` returns true iff some holiday of the region
resolves (for the queried date's year) to exactly the queried date; a holiday
whose resolution fails is skipped. -/
theorem is_holiday_iff (r : Region) (dt : Date) :
    r.is_holiday dt = true ↔ ∃ h ∈ r.holidays, h.date dt.year = some dt := by
  simp only [Region.is_holiday, List.any_eq_true]
  constructor
  · rintro ⟨h, hmem, hp⟩
    cases hd : h.date dt.year with
    | none =>
      rw [hd] at hp
      exact absurd hp (by simp)
    | some resolved =>
      simp only [hd, decide_eq_true_eq] at hp
      exact ⟨h, hmem, by rw [hd, hp]⟩
  · rintro ⟨h, hmem, hp⟩
    refine ⟨h, hmem, ?_⟩
    simp only [hp, decide_eq_true_eq]

/-- C6: every region's resolved list contains all 9 nationwide holidays and
has no duplicate entries. -/
theorem holidays_nationwide_nodup (r : Region) :
    (∀ h ∈ NATION_WIDE_HOLIDAYS, h ∈ r.holidays) ∧ r.holidays.Nodup := by
  cases r <;> decide

/-- C8: which regions carry the Catholic-majority holidays and the Augsburg
Peace Festival.  Note that `BayernProtestant`'s list does contain Corpus
Christi and Assumption Day. -/
theorem protestant_variant_holidays :
    Holiday.Fronleichnam ∈ Region.BayernProtestant.holidays ∧
    Holiday.MariaeHimmelfahrt ∈ Region.BayernProtestant.holidays ∧
    Holiday.Fronleichnam ∉ Region.SachenProtestant.holidays ∧
    Holiday.MariaeHimmelfahrt ∉ Region.SachenProtestant.holidays ∧
    Holiday.Fronleichnam ∉ Region.ThueringenProtestant.holidays ∧
    Holiday.MariaeHimmelfahrt ∉ Region.ThueringenProtestant.holidays ∧
    (∀ r : Region, Holiday.AugsburgerFriedensfest ∈ r.holidays ↔ r = Region.BayernAugsburg) := by
  refine ⟨by decide, by decide, by decide, by decide, by decide, by decide, ?_⟩
  intro r
  cases r <;> decide

/-- C9 counterexample: `Region` does not have 24 variants. -/
theorem region_card_ne_24 : Fintype.card Region ≠ 24 := by decide

/-- C9 (amended): `Region` is a closed enumeration with exactly 23 variants. -/
theorem region_card : Fintype.card Region = 23 := by decide

/-- C10: fixed-calendar-date holiday rules succeed for every representable
year — including years before 1583 — so `is_holiday` reports December 25 of
year 1500 as a holiday in every region. -/
theorem fixed_date_holidays_any_year (r : Region) (y : Int)
    (h1 : -9999 ≤ y) (h2 : y ≤ 9999) :
    Holiday.date Holiday.Neujahr y = some ⟨y, 1, 1⟩ ∧
    Holiday.date Holiday.ErsterWeihnachtsfeiertag y = some ⟨y, 12, 25⟩ ∧
    Region.is_holiday r ⟨1500, 12, 25⟩ = true := by
  refine ⟨?_, ?_, ?_⟩
  · simp only [Holiday.date, fromCalendarDate, daysInMonth]
    rw [if_pos (by omega)]
  · simp only [Holiday.date, fromCalendarDate, daysInMonth]
    rw [if_pos (by omega)]
  · cases r <;> decide

/-- Witness for C10 at year 1500 and region Bayern. -/
theorem fixed_date_holidays_any_year_witness :
    (-9999 ≤ (1500 : Int)) ∧ ((1500 : Int) ≤ 9999) ∧
    (Holiday.date Holiday.Neujahr 1500 = some ⟨1500, 1, 1⟩ ∧
     Holiday.date Holiday.ErsterWeihnachtsfeiertag 1500 = some ⟨1500, 12, 25⟩ ∧
     Region.is_holiday Region.Bayern ⟨1500, 12, 25⟩ = true) :=
  ⟨by decide, by decide, fixed_date_holidays_any_year Region.Bayern 1500 (by decide) (by decide)⟩
